import Mathlib

/-!
Verification of the opencv-rust backend-dispatch and buffer-layout spec
against the repository's tooling sources and, where the core engine code
is not part of the excerpt, against models built from the spec's own
description of those components.

Conventions: machine words are `Nat` values; a 32-bit word is a `Nat`
below `2 ^ 32` and a byte is a `Nat` below `256`.  Buffers are lists of
words.  Fallible operations return `Except`.
-/

set_option maxRecDepth 4096

namespace OpencvRust

/-! ### Word-packed byte buffer (spec section 4.1) -/

/-- Extraction of byte `k` (little-endian, byte 0 least significant) from a
32-bit word by shift-and-mask, as the shader helpers do it. -/
def extractByte (w k : Nat) : Nat :=
  (w >>> (8 * k)) &&& 0xFF

/-- Read-modify-write of byte `k` of a word: clear the target byte's bits
with a mask, then OR in the new value shifted into position. -/
def setByteWord (w k v : Nat) : Nat :=
  (w &&& (0xFFFFFFFF ^^^ (0xFF <<< (8 * k)))) ||| (v <<< (8 * k))

/-- Modelled from the spec: the WGSL helper `read_byte` (the file
`src/gpu/shaders/byte_access_helpers.wgsl` is read but not shown in the
excerpt).  Spec section 4.1: `read_byte` computes `word = buffer[byte_index / 4]`
and extracts the `(byte_index % 4)`-th byte from that word, little-endian
byte-within-word. -/
def read_byte (buf : List Nat) (i : Nat) : Nat :=
  extractByte (buf.getD (i / 4) 0) (i % 4)

/-- Modelled from the spec: the WGSL helper `write_byte`.  Spec section 4.1:
`write_byte` performs a read-modify-write of the containing word
`buffer[byte_index / 4]`: clear the target byte's bits, OR in the new value
shifted into position, store the word back. -/
def write_byte (buf : List Nat) (i : Nat) (v : Nat) : List Nat :=
  buf.set (i / 4) (setByteWord (buf.getD (i / 4) 0) (i % 4) v)

/-- Little-endian byte-of-word specification by arithmetic: the `k`-th byte
of `w` is `w / 256 ^ k % 256`. -/
def byteSpec (w k : Nat) : Nat :=
  w / 2 ^ (8 * k) % 2 ^ 8

theorem testBit_byteMask (n : Nat) : Nat.testBit 0xFF n = decide (n < 8) := by
  have h : (0xFF : Nat) = 2 ^ 8 - 1 := by norm_num
  rw [h, Nat.testBit_two_pow_sub_one]

theorem testBit_wordMask (n : Nat) : Nat.testBit 0xFFFFFFFF n = decide (n < 32) := by
  have h : (0xFFFFFFFF : Nat) = 2 ^ 32 - 1 := by norm_num
  rw [h, Nat.testBit_two_pow_sub_one]

theorem extractByte_eq_byteSpec (w k : Nat) : extractByte w k = byteSpec w k := by
  unfold extractByte byteSpec
  rw [show (0xFF : Nat) = 2 ^ 8 - 1 from by norm_num, Nat.shiftRight_eq_div_pow,
    Nat.and_pow_two_sub_one_eq_mod]

theorem extractByte_set_self (w k v : Nat) (hv : v < 256) (hk : k < 4) :
    extractByte (setByteWord w k v) k = v := by
  apply Nat.eq_of_testBit_eq
  intro n
  have hge : 8 * k ≤ 8 * k + n := Nat.le_add_right _ _
  have hsub : 8 * k + n - 8 * k = n := by omega
  by_cases hn : n < 8
  · have h32 : 8 * k + n < 32 := by omega
    simp [extractByte, setByteWord, testBit_byteMask, testBit_wordMask,
      Nat.testBit_and, Nat.testBit_or, Nat.testBit_xor, Nat.testBit_shiftLeft,
      Nat.testBit_shiftRight, hge, hsub, hn, h32]
  · have hvn : v.testBit n = false := by
      apply Nat.testBit_lt_two_pow
      calc v < 256 := hv
        _ = 2 ^ 8 := by norm_num
        _ ≤ 2 ^ n := Nat.pow_le_pow_right (by norm_num) (by omega)
    simp [extractByte, setByteWord, testBit_byteMask, testBit_wordMask,
      Nat.testBit_and, Nat.testBit_or, Nat.testBit_xor, Nat.testBit_shiftLeft,
      Nat.testBit_shiftRight, hge, hsub, hn, hvn]

theorem extractByte_set_other (w k k' v : Nat) (hv : v < 256) (hk : k < 4)
    (hk' : k' < 4) (hne : k' ≠ k) :
    extractByte (setByteWord w k v) k' = extractByte w k' := by
  apply Nat.eq_of_testBit_eq
  intro n
  by_cases hn : n < 8
  · rcases Nat.lt_or_ge k' k with hkk | hkk
    · have h1 : ¬ 8 * k ≤ 8 * k' + n := by omega
      have h32 : 8 * k' + n < 32 := by omega
      simp [extractByte, setByteWord, testBit_byteMask, testBit_wordMask,
        Nat.testBit_and, Nat.testBit_or, Nat.testBit_xor, Nat.testBit_shiftLeft,
        Nat.testBit_shiftRight, h1, h32, hn]
    · have hkk' : k < k' := by omega
      have h1 : 8 * k ≤ 8 * k' + n := by omega
      have h8 : ¬ 8 * k' + n - 8 * k < 8 := by omega
      have h32 : 8 * k' + n < 32 := by omega
      have hvn : v.testBit (8 * k' + n - 8 * k) = false := by
        apply Nat.testBit_lt_two_pow
        calc v < 256 := hv
          _ = 2 ^ 8 := by norm_num
          _ ≤ 2 ^ (8 * k' + n - 8 * k) := Nat.pow_le_pow_right (by norm_num) (by omega)
      simp [extractByte, setByteWord, testBit_byteMask, testBit_wordMask,
        Nat.testBit_and, Nat.testBit_or, Nat.testBit_xor, Nat.testBit_shiftLeft,
        Nat.testBit_shiftRight, h1, h8, h32, hn, hvn]
  · simp [extractByte, testBit_byteMask,
      Nat.testBit_and, Nat.testBit_shiftRight, hn]

theorem getD_set_self (l : List Nat) (m w : Nat) (h : m < l.length) :
    (l.set m w).getD m 0 = w := by
  simp [List.getD_eq_getElem?_getD, List.getElem?_set_self h]

theorem getD_set_other (l : List Nat) (m j w : Nat) (h : j ≠ m) :
    (l.set m w).getD j 0 = l.getD j 0 := by
  simp [List.getD_eq_getElem?_getD, List.getElem?_set_ne (Ne.symm h)]

/-- C1: for every word-packed buffer of byte length `4 * buf.length`, every
in-range byte index `i` and byte value `v`, reading byte `i` after writing
`v` at byte `i` yields `v`, and every other in-range byte index `j ≠ i`
(including indices inside the same 32-bit word as `i`) reads the same value
as in the original buffer. -/
theorem C1_write_byte_read_byte (buf : List Nat) (i j v : Nat)
    (hi : i < 4 * buf.length) (hj : j < 4 * buf.length) (hv : v < 256) :
    read_byte (write_byte buf i v) i = v ∧
    (j ≠ i → read_byte (write_byte buf i v) j = read_byte buf j) := by
  constructor
  · unfold read_byte write_byte
    rw [getD_set_self _ _ _ (by omega)]
    exact extractByte_set_self _ _ _ hv (by omega)
  · intro hne
    unfold read_byte write_byte
    by_cases hw : j / 4 = i / 4
    · rw [hw, getD_set_self _ _ _ (by omega)]
      have hkne : j % 4 ≠ i % 4 := by omega
      exact extractByte_set_other _ _ _ _ hv (by omega) (by omega) hkne
    · rw [getD_set_other _ _ _ _ hw]

/-- Witness for C1 at a concrete buffer: write byte 1 of the first word and
check the round trip plus a same-word neighbour byte. -/
theorem C1_write_byte_read_byte_witness :
    read_byte (write_byte [0x04030201, 0x08070605] 1 0xAA) 1 = 0xAA ∧
    read_byte (write_byte [0x04030201, 0x08070605] 1 0xAA) 2 =
      read_byte [0x04030201, 0x08070605] 2 :=
  ⟨(C1_write_byte_read_byte [0x04030201, 0x08070605] 1 2 0xAA (by decide) (by decide)
      (by decide)).1,
   (C1_write_byte_read_byte [0x04030201, 0x08070605] 1 2 0xAA (by decide) (by decide)
      (by decide)).2 (by decide)⟩

/-- C4: `read_byte buf i` is exactly the `(i % 4)`-th little-endian byte
(`byteSpec`) of the word `buf[i / 4]`, and `write_byte` uses the identical
word-index and intra-word-offset mapping: it leaves every word other than
`i / 4` unchanged, sets the `(i % 4)`-th arithmetic byte of word `i / 4`
to `v`, and leaves the other arithmetic bytes of that word unchanged. -/
theorem C4_byte_word_mapping (buf : List Nat) (i v : Nat)
    (hi : i < 4 * buf.length) (hv : v < 256) :
    read_byte buf i = byteSpec (buf.getD (i / 4) 0) (i % 4) ∧
    (∀ m, m ≠ i / 4 → (write_byte buf i v).getD m 0 = buf.getD m 0) ∧
    byteSpec ((write_byte buf i v).getD (i / 4) 0) (i % 4) = v ∧
    (∀ k, k < 4 → k ≠ i % 4 →
      byteSpec ((write_byte buf i v).getD (i / 4) 0) k =
        byteSpec (buf.getD (i / 4) 0) k) := by
  refine ⟨?_, ?_, ?_, ?_⟩
  · unfold read_byte
    exact extractByte_eq_byteSpec _ _
  · intro m hm
    unfold write_byte
    exact getD_set_other _ _ _ _ hm
  · unfold write_byte
    rw [getD_set_self _ _ _ (by omega), ← extractByte_eq_byteSpec]
    exact extractByte_set_self _ _ _ hv (by omega)
  · intro k hk hkne
    unfold write_byte
    rw [getD_set_self _ _ _ (by omega), ← extractByte_eq_byteSpec,
      ← extractByte_eq_byteSpec]
    exact extractByte_set_other _ _ _ _ hv (by omega) hk hkne

/-- Witness for C4 at a concrete buffer, byte index 6 (word 1, offset 2). -/
theorem C4_byte_word_mapping_witness :
    read_byte [0x04030201, 0x08070605] 6 =
      byteSpec ([0x04030201, 0x08070605].getD 1 0) 2 ∧
    (write_byte [0x04030201, 0x08070605] 6 0x5C).getD 0 0 =
      [0x04030201, 0x08070605].getD 0 0 ∧
    byteSpec ((write_byte [0x04030201, 0x08070605] 6 0x5C).getD 1 0) 2 = 0x5C ∧
    byteSpec ((write_byte [0x04030201, 0x08070605] 6 0x5C).getD 1 0) 3 =
      byteSpec ([0x04030201, 0x08070605].getD 1 0) 3 := by
  have h := C4_byte_word_mapping [0x04030201, 0x08070605] 6 0x5C (by decide) (by decide)
  exact ⟨h.1, h.2.1 0 (by decide), h.2.2.1, h.2.2.2 3 (by decide) (by decide)⟩

/-! ### Kernel dispatch geometry (spec sections 4.1 and 5) -/

/-- Modelled from the spec: kernels are dispatched one invocation per
pixel-channel-group such that invocation `g` owns one whole 32-bit word,
i.e. the 4 consecutive channel bytes `4*g .. 4*g+3` of pixel-channel-group
`g` (the kernel bodies themselves are not part of the excerpt). -/
def bytesOwned (g : Nat) : List Nat :=
  [4 * g, 4 * g + 1, 4 * g + 2, 4 * g + 3]

/-- Word indices touched by invocation `g`: the word of each owned byte. -/
def wordsWritten (g : Nat) : List Nat :=
  (bytesOwned g).map (fun b => b / 4)

/-- C7: two distinct invocations of one kernel launch write disjoint sets of
word indices, and a `write_byte` to any byte owned by invocation `g` leaves
every word outside `g`'s owned word untouched, so no word-granularity
atomics are needed. -/
theorem C7_invocation_words_disjoint (g g' : Nat) (hne : g ≠ g') :
    (∀ w ∈ wordsWritten g, w ∉ wordsWritten g') ∧
    (∀ b ∈ bytesOwned g, ∀ buf v m, m ≠ g →
      (write_byte buf b v).getD m 0 = buf.getD m 0) := by
  constructor
  · intro w hw hw'
    simp [wordsWritten, bytesOwned] at hw hw'
    omega
  · intro b hb buf v m hm
    simp [bytesOwned] at hb
    unfold write_byte
    apply getD_set_other
    omega

/-- Witness for C7 at invocations 0 and 1 on a concrete buffer. -/
theorem C7_invocation_words_disjoint_witness :
    (0 : Nat) ∉ wordsWritten 1 ∧ (write_byte [5, 6] 2 0xAB).getD 1 0 = 6 := by
  have h := C7_invocation_words_disjoint 0 1 (by decide)
  refine ⟨h.1 0 (by decide), ?_⟩
  have h2 := h.2 2 (by decide) [5, 6] 0xAB 1 (by decide)
  rw [h2]
  decide

/-! ### Channel-aware color conversion selection (spec section 4.2) -/

/-- Conversion codes relevant to the to-grayscale selection: the 3-channel
and 4-channel source variants are distinct values. -/
inductive ColorConversionCode where
  | BgrToGray
  | RgbaToGray
deriving DecidableEq

/-- An image: width, height, channel count and raw sample bytes. -/
structure Image where
  width : Nat
  height : Nat
  channels : Nat
  data : List Nat
deriving DecidableEq

/-- Channel-aware conversion selection as inserted by the fixers
(`fix_channel_conversions.py` lines 29-35 and `fix_channel_conversions_v2.py`
lines 35-41): `if src.channels() == 4 then RgbaToGray else BgrToGray`.
The base conversion target is grayscale, the only target the fixers emit. -/
def select_conversion (source_channels : Nat) : ColorConversionCode :=
  if source_channels == 4 then ColorConversionCode.RgbaToGray
  else ColorConversionCode.BgrToGray

/-- Selection at an image call site: the inserted code inspects only the
source's channel count. -/
def selectConversionFor (img : Image) : ColorConversionCode :=
  select_conversion img.channels

/-- C2: a 4-channel source always selects the 4-channel code `RgbaToGray`
and never the 3-channel code, and a 3-channel source always selects
`BgrToGray` and never the 4-channel code. -/
theorem C2_selector_channel_specific (img : Image) :
    (img.channels = 4 → selectConversionFor img = ColorConversionCode.RgbaToGray ∧
      selectConversionFor img ≠ ColorConversionCode.BgrToGray) ∧
    (img.channels = 3 → selectConversionFor img = ColorConversionCode.BgrToGray ∧
      selectConversionFor img ≠ ColorConversionCode.RgbaToGray) := by
  constructor <;> intro h <;> simp [selectConversionFor, select_conversion, h]

/-- Witness for C2 at a concrete 4-channel and a concrete 3-channel image. -/
theorem C2_selector_channel_specific_witness :
    (Image.mk 2 2 4 [0]).channels = 4 ∧
    selectConversionFor (Image.mk 2 2 4 [0]) = ColorConversionCode.RgbaToGray ∧
    (Image.mk 2 2 3 [0]).channels = 3 ∧
    selectConversionFor (Image.mk 2 2 3 [0]) = ColorConversionCode.BgrToGray :=
  ⟨rfl, ((C2_selector_channel_specific (Image.mk 2 2 4 [0])).1 rfl).1,
   rfl, ((C2_selector_channel_specific (Image.mk 2 2 3 [0])).2 rfl).1⟩

/-- C3 counterexample: at source channel count 1 (neither 3 nor 4) the
inserted selection does not fail; it silently returns the 3-channel code
`BgrToGray`. -/
theorem C3_counterexample_silent_fallback :
    select_conversion 1 = ColorConversionCode.BgrToGray := by
  decide

/-- C3 amended: for every source channel count other than 4 — including
counts that are neither 3 nor 4 — the inserted selection silently returns
the 3-channel code `BgrToGray`; no `UnsupportedChannelCount` condition is
signalled on any channel count. -/
theorem C3_amended_fallback (c : Nat) (h : c ≠ 4) :
    select_conversion c = ColorConversionCode.BgrToGray := by
  simp [select_conversion, h]

/-- Witness for the amended C3 at channel count 1. -/
theorem C3_amended_fallback_witness :
    (1 : Nat) ≠ 4 ∧ select_conversion 1 = ColorConversionCode.BgrToGray :=
  ⟨by decide, C3_amended_fallback 1 (by decide)⟩

/-- C8: the selection is a pure, deterministic function of the base target
(grayscale, fixed in the inserted code) and the source channel count: any
two call sites whose sources have equal channel counts obtain equal
conversion codes, whatever the rest of the image data is; no state is read
or mutated, which the embedding reflects by being a plain function. -/
theorem C8_selector_pure (img1 img2 : Image) (h : img1.channels = img2.channels) :
    selectConversionFor img1 = selectConversionFor img2 := by
  simp [selectConversionFor, select_conversion, h]

/-- Witness for C8: two different 4-channel images select the same code. -/
theorem C8_selector_pure_witness :
    (Image.mk 10 20 4 [1, 2, 3]).channels = (Image.mk 7 9 4 []).channels ∧
    selectConversionFor (Image.mk 10 20 4 [1, 2, 3]) =
      selectConversionFor (Image.mk 7 9 4 []) :=
  ⟨rfl, C8_selector_pure (Image.mk 10 20 4 [1, 2, 3]) (Image.mk 7 9 4 []) rfl⟩

/-! ### Backend capability registry (spec section 4.3, src/migrate_backend.py) -/

/-- Strip the first occurrence of `pat` from the head of `cs`, returning the
rest, or `none` when `cs` does not start with `pat`. -/
def stripHead : List Char → List Char → Option (List Char)
  | [], rest => some rest
  | _ :: _, [] => none
  | p :: ps, c :: cs => if p = c then stripHead ps cs else none

/-- Left-to-right, non-overlapping replacement of `pat` by `rep`, Python
`str.replace` semantics; `fuel` bounds the recursion and is adequate at the
input length because each step consumes at least one character (`pat` is
nonempty in every use). -/
def replaceAux (pat rep : List Char) : Nat → List Char → List Char
  | _, [] => []
  | 0, cs => cs
  | fuel + 1, c :: cs =>
    match stripHead pat (c :: cs) with
    | some rest => rep ++ replaceAux pat rep fuel rest
    | none => c :: replaceAux pat rep fuel cs

/-- Python `s.replace(pat, rep)` (all occurrences); an empty pattern leaves
the string unchanged, which never arises in this development. -/
def pyReplace (s pat rep : String) : String :=
  if pat.data.isEmpty then s
  else ⟨replaceAux pat.data rep.data s.data.length s.data⟩

/-- GPU operations available, from `GPU_OPS` in src/migrate_backend.py. -/
def GPU_OPS : List String :=
  ["canny", "sobel", "scharr", "laplacian",
   "gaussian_blur", "box_blur", "median_blur", "bilateral_filter", "filter2d",
   "erode", "dilate",
   "resize", "flip", "rotate", "warp_affine", "warp_perspective",
   "threshold", "adaptive_threshold",
   "rgb_to_gray", "rgb_to_hsv", "rgb_to_lab", "rgb_to_ycrcb",
   "hsv_to_rgb", "lab_to_rgb", "ycrcb_to_rgb",
   "add", "subtract", "multiply", "add_weighted", "absdiff",
   "bitwise_and", "bitwise_or", "bitwise_xor", "bitwise_not",
   "min", "max", "convert_scale", "normalize", "in_range",
   "pyrdown", "pyrup", "remap", "lut",
   "split", "merge",
   "exp", "log", "sqrt", "pow",
   "equalize_hist", "integral_image", "distance_transform",
   "gradient_magnitude"]

/-- `has_gpu_support` from src/migrate_backend.py: strip the `_wasm` and
`_async` suffix markers (all occurrences, Python `str.replace`) and test
membership in `GPU_OPS`. -/
def has_gpu_support (op_name : String) : Bool :=
  GPU_OPS.contains (pyReplace (pyReplace op_name "_wasm" "") "_async" "")

/-- Error kinds of the dispatch layer, from spec section 7. -/
inductive DispatchError where
  | UnknownOperation
  | UnsupportedChannelCount
deriving DecidableEq

/-- Per-operation capability entry, spec section 3: host is always
available; GPU availability and supported channel counts per operation. -/
structure CapabilityEntry where
  host_available : Bool
  gpu_available : Bool
  gpu_channel_support : List Nat
deriving DecidableEq

/-- Modelled from the spec: the capability registry `lookup` (section 4.3);
the registry construction itself is not in the excerpt.  Names outside the
registered set fail with `UnknownOperation`; registered names build an
entry whose GPU availability comes from `has_gpu_support`
(src/migrate_backend.py) and whose channel support is the registry's
per-operation enumeration `chanSupport` when a GPU kernel exists. -/
def lookup (registry : List String) (chanSupport : String → List Nat)
    (op : String) : Except DispatchError CapabilityEntry :=
  if registry.contains op then
    Except.ok
      { host_available := true
        gpu_available := has_gpu_support op
        gpu_channel_support := if has_gpu_support op then chanSupport op else [] }
  else
    Except.error DispatchError.UnknownOperation

/-- C6: an operation name not in the registry makes `lookup` fail with
`UnknownOperation` — it never resolves to a host-only entry — while a
registered name with no GPU implementation resolves to a host-only entry. -/
theorem C6_lookup_unknown_vs_host_only (registry : List String)
    (chanSupport : String → List Nat) (op : String) :
    (registry.contains op = false →
      lookup registry chanSupport op = Except.error DispatchError.UnknownOperation) ∧
    (registry.contains op = true → has_gpu_support op = false →
      lookup registry chanSupport op =
        Except.ok
          { host_available := true, gpu_available := false,
            gpu_channel_support := [] }) := by
  constructor
  · intro h
    have h' : op ∉ registry := by simpa using h
    simp [lookup, h']
  · intro h hg
    have h' : op ∈ registry := by simpa using h
    simp [lookup, h', hg]

/-- Witness for C6: the misspelled name "cannyy" is unknown and errors; the
registered "histogram" has no GPU kernel and resolves to host-only. -/
theorem C6_lookup_unknown_vs_host_only_witness :
    (["canny", "histogram"].contains "cannyy" = false) ∧
    lookup ["canny", "histogram"] (fun _ => [3, 4]) "cannyy" =
      Except.error DispatchError.UnknownOperation ∧
    (["canny", "histogram"].contains "histogram" = true) ∧
    has_gpu_support "histogram" = false ∧
    lookup ["canny", "histogram"] (fun _ => [3, 4]) "histogram" =
      Except.ok
        { host_available := true, gpu_available := false,
          gpu_channel_support := [] } := by
  refine ⟨by decide, ?_, by decide, by decide, ?_⟩
  · exact (C6_lookup_unknown_vs_host_only ["canny", "histogram"] (fun _ => [3, 4])
      "cannyy").1 (by decide)
  · exact (C6_lookup_unknown_vs_host_only ["canny", "histogram"] (fun _ => [3, 4])
      "histogram").2 (by decide) (by decide)

/-! ### Backend dispatcher (spec section 4.4) -/

/-- Caller backend preference, spec section 6. -/
inductive PreferBackend where
  | Auto
  | Host
  | Gpu
deriving DecidableEq

/-- Observable outcome of one dispatch: how many GPU attempts and host
executions ran, and the call's result. -/
structure DispatchOutcome where
  gpuAttempts : Nat
  hostRuns : Nat
  result : Except DispatchError Image

/-- Modelled from the spec: the dispatcher state machine of section 4.4
(`Start → CapabilityCheck → {GpuAttempt | HostExecute} → [GpuFailed →
HostExecute] → Done`); the dispatcher itself is not in the excerpt.  The
GPU implementation returns `none` on device unavailability, launch failure
or caller-aborted timeout; on that single failure the dispatcher runs the
host implementation exactly once, with no GPU retry. -/
def execute (entry : CapabilityEntry) (hostImpl : Image → Image)
    (gpuImpl : Image → Option Image) (pref : PreferBackend) (img : Image) :
    DispatchOutcome :=
  if pref ≠ PreferBackend.Host ∧ entry.gpu_available = true ∧
      img.channels ∈ entry.gpu_channel_support then
    match gpuImpl img with
    | some out => { gpuAttempts := 1, hostRuns := 0, result := Except.ok out }
    | none => { gpuAttempts := 1, hostRuns := 1, result := Except.ok (hostImpl img) }
  else
    { gpuAttempts := 0, hostRuns := 1, result := Except.ok (hostImpl img) }

/-- C5: when the GPU attempt fails, the dispatcher runs the host
implementation exactly once, makes at most one GPU attempt (no retry),
returns exactly the result of calling with `prefer_backend = Host`, and
surfaces no error to the caller. -/
theorem C5_gpu_failure_fallback (entry : CapabilityEntry)
    (hostImpl : Image → Image) (gpuImpl : Image → Option Image)
    (pref : PreferBackend) (img : Image) (hfail : gpuImpl img = none) :
    (execute entry hostImpl gpuImpl pref img).hostRuns = 1 ∧
    (execute entry hostImpl gpuImpl pref img).gpuAttempts ≤ 1 ∧
    (execute entry hostImpl gpuImpl pref img).result =
      (execute entry hostImpl gpuImpl PreferBackend.Host img).result ∧
    (execute entry hostImpl gpuImpl pref img).result = Except.ok (hostImpl img) := by
  unfold execute
  by_cases hc : pref ≠ PreferBackend.Host ∧ entry.gpu_available = true ∧
      img.channels ∈ entry.gpu_channel_support
  · simp [hc, hfail]
  · simp [hc, hfail]

/-- Witness for C5: a persistently failing GPU on a 4-channel image with an
identity host implementation. -/
theorem C5_gpu_failure_fallback_witness :
    (fun _ : Image => (none : Option Image)) (Image.mk 1 1 4 [0]) = none ∧
    (execute (CapabilityEntry.mk true true [3, 4]) (fun img => img)
        (fun _ => none) PreferBackend.Auto (Image.mk 1 1 4 [0])).hostRuns = 1 ∧
    (execute (CapabilityEntry.mk true true [3, 4]) (fun img => img)
        (fun _ => none) PreferBackend.Auto (Image.mk 1 1 4 [0])).result =
      (execute (CapabilityEntry.mk true true [3, 4]) (fun img => img)
        (fun _ => none) PreferBackend.Host (Image.mk 1 1 4 [0])).result := by
  have h := C5_gpu_failure_fallback (CapabilityEntry.mk true true [3, 4])
    (fun img => img) (fun _ => none) PreferBackend.Auto (Image.mk 1 1 4 [0]) rfl
  exact ⟨rfl, h.1, h.2.2.1⟩

/-! ### The shader byte-access fixer (src/scripts/fix_shader_byte_access.py) -/

/-- Python `needle in hay` substring test. -/
def containsList (pat : List Char) : List Char → Bool
  | [] => pat.isEmpty
  | c :: cs => (stripHead pat (c :: cs)).isSome || containsList pat cs

/-- Python `needle in hay` on strings. -/
def pyContains (hay needle : String) : Bool :=
  containsList needle.data hay.data

/-- Python `\s` on the ASCII range: space, tab, newline, carriage return,
vertical tab, form feed. -/
def isPySpace (c : Char) : Bool :=
  c = ' ' || c = '\t' || c = '\n' || c = '\r' || c = '\x0b' || c = '\x0c'

/-- One position of the insertion-marker search
`re.search(r"(@compute|^fn\s)", content, re.MULTILINE)`: the literal
`@compute`, or `fn` followed by whitespace at the start of a line. -/
def markerHere (atLineStart : Bool) (cs : List Char) : Bool :=
  (stripHead ("@compute").data cs).isSome ||
  (atLineStart &&
    (match cs with
     | 'f' :: 'n' :: c :: _ => isPySpace c
     | _ => false))

/-- Leftmost insertion-marker position; `atLS` tracks whether the current
position starts the string or follows a newline (`re.MULTILINE`). -/
def findMarkerAux : Nat → Bool → List Char → Option Nat
  | _, _, [] => none
  | pos, atLS, c :: cs =>
    if markerHere atLS (c :: cs) then some pos
    else findMarkerAux (pos + 1) (c = '\n') cs

/-- `insert_marker.start()` of fix_shader. -/
def findMarker (content : String) : Option Nat :=
  findMarkerAux 0 true content.data

/-- Splice the byte-access helpers with their separator comments into the
content at the insertion position, as fix_shader builds `new_content`. -/
def insertHelpers (helpers content : String) (pos : Nat) : String :=
  ⟨content.data.take pos ++
    ("\n// === Byte Access Helpers ===\n// Required for correct RGBA byte extraction from u32 storage buffers\n\n").data ++
    helpers.data ++
    ("\n// === End Byte Access Helpers ===\n\n").data ++
    content.data.drop pos⟩

/-- `fix_shader` of src/scripts/fix_shader_byte_access.py on a file's
content: skip when already fixed (`read_byte` present), skip when no
`array<u32>` buffer occurs, skip when no insertion marker exists; else
insert the helpers and rewrite accesses, reporting whether the content
changed (the script writes the file back exactly when it did).  The two
buffer-access regex substitutions are passed in as `subst`; the claims
checked here depend only on the guards, which are embedded in full. -/
def fix_shader (subst : String → String) (helpers content : String) :
    Bool × String :=
  if pyContains content "read_byte" then (false, content)
  else if !pyContains content "array<u32>" then (false, content)
  else
    match findMarker content with
    | none => (false, content)
    | some pos =>
      let newContent := subst (insertHelpers helpers content pos)
      (newContent != content, newContent)

/-- C9: the fixer is idempotent — on content already containing
`read_byte` it reports `False` and returns the content unchanged, so a
second application never inserts the helpers or rewrites accesses again. -/
theorem C9_fix_shader_idempotent (subst : String → String)
    (helpers content : String) (h : pyContains content "read_byte" = true) :
    fix_shader subst helpers content = (false, content) := by
  simp [fix_shader, h]

/-- Witness for C9 on a concrete already-fixed shader fragment. -/
theorem C9_fix_shader_idempotent_witness :
    pyContains "let v = read_byte(&input, idx);" "read_byte" = true ∧
    fix_shader (fun s => s) "" "let v = read_byte(&input, idx);" =
      (false, "let v = read_byte(&input, idx);") :=
  ⟨by decide,
   C9_fix_shader_idempotent (fun s => s) "" "let v = read_byte(&input, idx);"
     (by decide)⟩

/-! ### The channel-conversion fixer (src/examples/web-benchmark/fix_channel_conversions.py) -/

/-- Character class `[a-z_\.]` of the cvt_color pattern. -/
def isVarChar (c : Char) : Bool :=
  ('a' ≤ c && c ≤ 'z') || c = '_' || c = '.'

/-- Literal head of the pattern
`cvt_color\(&([a-z_\.]+), &mut g, ColorConversionCode::BgrToGray\)`. -/
def patHead : List Char :=
  ("cvt_color(&").data

/-- Literal tail of the same pattern, after the captured variable. -/
def patTail : List Char :=
  (", &mut g, ColorConversionCode::BgrToGray)").data

/-- Try the cvt_color pattern at the current position, returning the
captured variable name and the rest of the input after the match.  The
greedy `[a-z_\.]+` needs no backtracking: the tail begins with a comma,
which the class excludes, so a regex match takes exactly the maximal run of
class characters. -/
def matchAt (cs : List Char) : Option (List Char × List Char) :=
  match stripHead patHead cs with
  | none => none
  | some r1 =>
    let var := r1.takeWhile isVarChar
    if var.isEmpty then none
    else
      match stripHead patTail (r1.dropWhile isVarChar) with
      | none => none
      | some r3 => some (var, r3)

/-- The replacement template of fix_channel_conversions.py with the capture
`\1` spliced in at both of its occurrences. -/
def replacementFor (var : List Char) : List Char :=
  ("// Use correct color conversion based on number of channels\n        let conversion_code = if ").data ++
  var ++
  (".channels() == 4 \x7b\n            ColorConversionCode::RgbaToGray\n        \x7d else \x7b\n            ColorConversionCode::BgrToGray\n        \x7d;\n        cvt_color(&").data ++
  var ++
  (", &mut g, conversion_code)").data

/-- `re.sub` of the cvt_color pattern: scan left to right, replacing each
non-overlapping match; `fuel` bounds the recursion and is adequate at the
input length because a match consumes at least the nonempty pattern head. -/
def subAux : Nat → List Char → List Char
  | _, [] => []
  | 0, cs => cs
  | fuel + 1, c :: cs =>
    match matchAt (c :: cs) with
    | some (var, rest) => replacementFor var ++ subAux fuel rest
    | none => c :: subAux fuel cs

/-- `content = re.sub(pattern, replacement, content)` of the fixer's loop. -/
def pySub (content : String) : String :=
  ⟨subAux content.data.length content.data⟩

/-- Does the cvt_color pattern match anywhere in the content? -/
def hasMatch : List Char → Bool
  | [] => false
  | c :: cs => (matchAt (c :: cs)).isSome || hasMatch cs

/-- The fixer's per-file loop body: substitute, then write back exactly
when the content changed; the pair is (wrote?, final content). -/
def processFile (content : String) : Bool × String :=
  let c2 := pySub content
  (c2 != content, c2)

theorem subAux_of_no_match (fuel : Nat) (cs : List Char)
    (h : hasMatch cs = false) : subAux fuel cs = cs := by
  induction fuel generalizing cs with
  | zero => cases cs <;> rfl
  | succ fuel ih =>
    cases cs with
    | nil => rfl
    | cons c cs =>
      have hm : matchAt (c :: cs) = none := by
        cases hmm : matchAt (c :: cs) with
        | none => rfl
        | some p => simp [hasMatch, hmm] at h
      have ht : hasMatch cs = false := by
        simp [hasMatch, hm] at h
        exact h
      simp [subAux, hm, ih cs ht]

/-- C10: a file whose content matches the cvt_color-with-BgrToGray pattern
nowhere — for instance because the destination variable is not literally
`g`, or the source variable uses characters outside `[a-z_.]` — is not
written, and its content is byte-for-byte unchanged. -/
theorem C10_no_match_no_write (content : String)
    (h : hasMatch content.data = false) :
    processFile content = (false, content) := by
  have hs : pySub content = content := by
    unfold pySub
    rw [subAux_of_no_match _ _ h]
  simp [processFile, hs]

/-- Witness for C10: an upper-case source variable falls outside the
pattern's character class, so the call site is left untouched. -/
theorem C10_no_match_no_write_witness :
    hasMatch ("cvt_color(&SRC, &mut g, ColorConversionCode::BgrToGray)").data = false ∧
    processFile "cvt_color(&SRC, &mut g, ColorConversionCode::BgrToGray)" =
      (false, "cvt_color(&SRC, &mut g, ColorConversionCode::BgrToGray)") :=
  ⟨by decide,
   C10_no_match_no_write "cvt_color(&SRC, &mut g, ColorConversionCode::BgrToGray)"
     (by decide)⟩

end OpencvRust
